import Mathlib

/-!
Verification development for the WebGL2 point-grid demo.

The program renders a grid of points on a canvas; a vertex shader pushes
points away from the pointer with a smooth falloff and a decaying
oscillation.  It carries a small 3x3 matrix class, stored column-major in a
flat array of nine elements.  We model the matrix class over the rationals
(the element arithmetic the claims touch is exact), the shader math over
the reals, the grid construction over the rationals, and the mutable
object store of the matrix class as an explicit heap.
-/

namespace PointsDemo

/-- The 3x3 matrix value: nine elements in column-major storage order,
mirroring the flat nine-element array of the class.  Element `e0` is the
array slot 0, and so on. -/
structure Matrix3 where
  e0 : ℚ
  e1 : ℚ
  e2 : ℚ
  e3 : ℚ
  e4 : ℚ
  e5 : ℚ
  e6 : ℚ
  e7 : ℚ
  e8 : ℚ
deriving DecidableEq

/-- `set` takes parameters in row-major order but stores column-major:
slot 0 gets m11, slot 3 gets m12, slot 6 gets m13, slot 1 gets m21, and so
on.  It overwrites every slot, so the prior value of the receiver is
irrelevant. -/
def Matrix3.set (_self : Matrix3)
    (m11 m12 m13 m21 m22 m23 m31 m32 m33 : ℚ) : Matrix3 :=
  { e0 := m11, e3 := m12, e6 := m13
    e1 := m21, e4 := m22, e7 := m23
    e2 := m31, e5 := m32, e8 := m33 }

/-- `makeIdentity` sets the identity matrix. -/
def Matrix3.makeIdentity (self : Matrix3) : Matrix3 :=
  self.set
    1 0 0
    0 1 0
    0 0 1

/-- The constructor allocates a nine-element array of zeros and then calls
`makeIdentity`. -/
def Matrix3.new : Matrix3 :=
  (⟨0, 0, 0, 0, 0, 0, 0, 0, 0⟩ : Matrix3).makeIdentity

/-- `makeScale`. -/
def Matrix3.makeScale (self : Matrix3) (x y : ℚ) : Matrix3 :=
  self.set
    x 0 0
    0 y 0
    0 0 1

/-- `makeTranslation` places the offsets at row-major positions m13 and
m23, hence at array slots 6 and 7. -/
def Matrix3.makeTranslation (self : Matrix3) (x y : ℚ) : Matrix3 :=
  self.set
    1 0 x
    0 1 y
    0 0 1

/-- `makeOrthographic`, exactly as written in the source: the two scale
terms on the diagonal, and the two translation terms passed in the third
ROW of the row-major `set` call, hence stored at array slots 2 and 5. -/
def Matrix3.makeOrthographic (self : Matrix3) (l r t b : ℚ) : Matrix3 :=
  self.set
    (2 / (r - l)) 0 0
    0 (2 / (t - b)) 0
    (-(r + l) / (r - l)) (-(t + b) / (t - b)) 1

/-- `multiplyScalar` multiplies every array slot by the scalar. -/
def Matrix3.multiplyScalar (self : Matrix3) (s : ℚ) : Matrix3 :=
  { e0 := self.e0 * s, e1 := self.e1 * s, e2 := self.e2 * s
    e3 := self.e3 * s, e4 := self.e4 * s, e5 := self.e5 * s
    e6 := self.e6 * s, e7 := self.e7 * s, e8 := self.e8 * s }

/-- A homogeneous 2D vector, as produced by `multiplyVector`. -/
structure Vector3 where
  x : ℚ
  y : ℚ
  z : ℚ
deriving DecidableEq

/-- `multiplyVector`: the column-major matrix applied to a vector. -/
def Matrix3.multiplyVector (self : Matrix3) (v : Vector3) : Vector3 :=
  ⟨self.e0 * v.x + self.e3 * v.y + self.e6 * v.z,
   self.e1 * v.x + self.e4 * v.y + self.e7 * v.z,
   self.e2 * v.x + self.e5 * v.y + self.e8 * v.z⟩

/-- `multiplyMatrix`: the receiver becomes the product of itself with the
argument, written back through the row-major `set`. -/
def Matrix3.multiplyMatrix (self m : Matrix3) : Matrix3 :=
  self.set
    (self.e0 * m.e0 + self.e3 * m.e1 + self.e6 * m.e2)
    (self.e0 * m.e3 + self.e3 * m.e4 + self.e6 * m.e5)
    (self.e0 * m.e6 + self.e3 * m.e7 + self.e6 * m.e8)
    (self.e1 * m.e0 + self.e4 * m.e1 + self.e7 * m.e2)
    (self.e1 * m.e3 + self.e4 * m.e4 + self.e7 * m.e5)
    (self.e1 * m.e6 + self.e4 * m.e7 + self.e7 * m.e8)
    (self.e2 * m.e0 + self.e5 * m.e1 + self.e8 * m.e2)
    (self.e2 * m.e3 + self.e5 * m.e4 + self.e8 * m.e5)
    (self.e2 * m.e6 + self.e5 * m.e7 + self.e8 * m.e8)

/-- Claim C5: composing the identity matrix with any matrix M through
`multiplyMatrix` yields M in both directions: the identity on the left
leaves the elements of M, and the identity on the right leaves the
receiver unchanged. -/
theorem identity_multiplyMatrix (M : Matrix3) :
    Matrix3.new.multiplyMatrix M = M ∧ M.multiplyMatrix Matrix3.new = M := by
  obtain ⟨a, b, c, d, e, f, g, h, i⟩ := M
  constructor <;>
    · simp only [Matrix3.new, Matrix3.makeIdentity, Matrix3.set,
        Matrix3.multiplyMatrix, Matrix3.mk.injEq]
      norm_num

/-- Witness for claim C5 at a concrete matrix with nine distinct
elements. -/
theorem identity_multiplyMatrix_witness :
    Matrix3.new.multiplyMatrix ⟨1, 2, 3, 4, 5, 6, 7, 8, 9⟩
        = ⟨1, 2, 3, 4, 5, 6, 7, 8, 9⟩ ∧
    (Matrix3.mk 1 2 3 4 5 6 7 8 9).multiplyMatrix Matrix3.new
        = ⟨1, 2, 3, 4, 5, 6, 7, 8, 9⟩ :=
  identity_multiplyMatrix ⟨1, 2, 3, 4, 5, 6, 7, 8, 9⟩

/-- Claim C1 evaluated at the failing input: with bounds l = 0, r = 2,
t = 2, b = 0, the matrix built by `makeOrthographic` sends the homogenized
corner (l, b) = (0, 0) to (0, 0, 1) and the corner (r, t) = (2, 2) to
(2, 2, ...), not to (-1, -1) and (1, 1).  The translation terms sit in
array slots 2 and 5 (the third row) instead of slots 6 and 7 (the third
column), so they feed the discarded homogeneous output component; only
symmetric bounds, as used by resizeCanvas, map the corners correctly. -/
theorem makeOrthographic_corner_eval :
    ((Matrix3.new.makeOrthographic 0 2 2 0).multiplyVector ⟨0, 0, 1⟩).x = 0 ∧
    ((Matrix3.new.makeOrthographic 0 2 2 0).multiplyVector ⟨0, 0, 1⟩).y = 0 ∧
    ((Matrix3.new.makeOrthographic 0 2 2 0).multiplyVector ⟨2, 2, 1⟩).x = 2 ∧
    ((Matrix3.new.makeOrthographic 0 2 2 0).multiplyVector ⟨2, 2, 1⟩).y = 2 ∧
    (0 : ℚ) ≠ -1 ∧ (2 : ℚ) ≠ 1 := by
  refine ⟨?_, ?_, ?_, ?_, by norm_num, by norm_num⟩ <;>
    · simp only [Matrix3.new, Matrix3.makeIdentity, Matrix3.makeOrthographic,
        Matrix3.set, Matrix3.multiplyVector]
      norm_num

/-! ## The point grid -/

/-- The constant `GRID_SIZE = 70`. -/
def GRID_SIZE : ℚ := 70

/-- The step of the grid: the larger canvas dimension divided by
`GRID_SIZE - 1`. -/
def gridStep (w h : ℚ) : ℚ := max w h / (GRID_SIZE - 1)

/-- The number of columns: the ceiling of the canvas width over the step. -/
def gridCols (w h : ℚ) : ℤ := ⌈w / gridStep w h⌉

/-- The number of rows: the ceiling of the canvas height over the step. -/
def gridRows (w h : ℚ) : ℤ := ⌈h / gridStep w h⌉

/-- The flat positions array built by rebuildGrid: for each row y and each
column x it pushes the two coordinates of one point, centering the grid on
the canvas. -/
def gridPositions (w h : ℚ) : List ℚ :=
  (List.range (gridRows w h).toNat).flatMap fun y =>
    (List.range (gridCols w h).toNat).flatMap fun x =>
      [(x : ℚ) * gridStep w h - w / 2 + gridStep w h / 2,
       (y : ℚ) * gridStep w h - h / 2 + gridStep w h / 2]

/-- The vertex count stored on the vertex array object: half the length of
the positions array. -/
def vertexCount (w h : ℚ) : ℕ := (gridPositions w h).length / 2

/-- The length of the positions array is rows times columns times two. -/
theorem length_gridPositions (w h : ℚ) :
    (gridPositions w h).length =
      (gridRows w h).toNat * ((gridCols w h).toNat * 2) := by
  simp [gridPositions, List.length_flatMap, Function.comp_def,
    List.map_const', List.sum_replicate, smul_eq_mul, mul_comm]

/-- Claim C2 fails on the code: for an 800x600 viewport the width divided
by the step is exactly 69, whose ceiling is 69, not 70, and the grid holds
3588 points, not 3640. -/
theorem rebuildGrid_800x600_not_3640 :
    ¬(gridCols 800 600 = 70 ∧ gridRows 800 600 = 52 ∧
      vertexCount 800 600 = 3640) := by
  intro hc
  have : gridCols 800 600 = 69 := by
    norm_num [gridCols, gridStep, GRID_SIZE]
  omega

/-- Claim C2 amended: for a viewport of width 800 and height 600 with
GRID_SIZE = 70, rebuildGrid uses step = 800/69, produces 69 columns and 52
rows, and emits exactly 3588 points. -/
theorem rebuildGrid_800x600_counts :
    gridStep 800 600 = 800 / 69 ∧ gridCols 800 600 = 69 ∧
    gridRows 800 600 = 52 ∧ vertexCount 800 600 = 3588 := by
  have hc : gridCols 800 600 = 69 := by
    norm_num [gridCols, gridStep, GRID_SIZE]
  have hr : gridRows 800 600 = 52 := by
    rw [gridRows,
      show (600 : ℚ) / gridStep 800 600 = 207 / 4 by
        norm_num [gridStep, GRID_SIZE],
      Int.ceil_eq_iff]
    constructor <;> norm_num
  refine ⟨by norm_num [gridStep, GRID_SIZE], hc, hr, ?_⟩
  rw [vertexCount, length_gridPositions 800 600, hc, hr]
  decide

/-- The state rebuildGrid reads and writes: the canvas dimensions, the
contents of the position buffer, and the vertex count of the vertex array
object. -/
structure GridState where
  width : ℚ
  height : ℚ
  buffer : List ℚ
  count : ℕ

/-- rebuildGrid as a state transformer: it reads the canvas dimensions,
rebuilds the positions array, uploads it to the buffer and stores the
vertex count.  It does not touch the dimensions. -/
def rebuildGrid (s : GridState) : GridState :=
  { s with buffer := gridPositions s.width s.height,
           count := (gridPositions s.width s.height).length / 2 }

/-- Claim C7: two consecutive runs of rebuildGrid on a state with
unchanged viewport dimensions produce the same point sequence (and the
same vertex count): the second run rewrites the buffer with an identical
list, since rebuildGrid never changes the dimensions it reads. -/
theorem rebuildGrid_idempotent (s : GridState) :
    (rebuildGrid (rebuildGrid s)).buffer = (rebuildGrid s).buffer ∧
    (rebuildGrid (rebuildGrid s)).count = (rebuildGrid s).count ∧
    (rebuildGrid s).width = s.width ∧ (rebuildGrid s).height = s.height := by
  refine ⟨rfl, rfl, rfl, rfl⟩

/-- Witness for claim C7 on a concrete 4x3 viewport state with a stale
buffer. -/
theorem rebuildGrid_idempotent_witness :
    (rebuildGrid (rebuildGrid (GridState.mk 4 3 [7] 9))).buffer
        = (rebuildGrid (GridState.mk 4 3 [7] 9)).buffer ∧
    (rebuildGrid (rebuildGrid (GridState.mk 4 3 [7] 9))).count
        = (rebuildGrid (GridState.mk 4 3 [7] 9)).count ∧
    (rebuildGrid (GridState.mk 4 3 [7] 9)).width = (4 : ℚ) ∧
    (rebuildGrid (GridState.mk 4 3 [7] 9)).height = (3 : ℚ) :=
  rebuildGrid_idempotent (GridState.mk 4 3 [7] 9)

/-! ## Pointer state -/

/-- updatePointerPosition: from client coordinates (x, y) and the canvas
dimensions it stores mouseX = x - width / 2 and mouseY = height / 2 - y. -/
def updatePointerPosition (x y width height : ℚ) : ℚ × ℚ :=
  (x - width / 2, height / 2 - y)

/-- Claim C8: a pointer event at client (400, 300) on an 800x600 canvas
yields pointer state (0, 0). -/
theorem updatePointerPosition_center :
    updatePointerPosition 400 300 800 600 = (0, 0) := by
  norm_num [updatePointerPosition]

/-- Claim C10: updatePointerPosition stores exactly
(x - width / 2, height / 2 - y); the stored y is negated relative to the
client y, so for client rows y1 < y2 the stored y at y2 is below the
stored y at y1: pointer-state y grows upward while client y grows
downward. -/
theorem updatePointerPosition_formula (x y width height y1 y2 : ℚ)
    (hy : y1 < y2) :
    updatePointerPosition x y width height = (x - width / 2, height / 2 - y) ∧
    (updatePointerPosition x y2 width height).2 <
      (updatePointerPosition x y1 width height).2 := by
  constructor
  · rfl
  · simp only [updatePointerPosition]
    linarith

/-- Witness for claim C10 at the concrete input x = 10, y = 20,
width = 800, height = 600, client rows y1 = 1 < y2 = 5. -/
theorem updatePointerPosition_formula_witness :
    updatePointerPosition 10 20 800 600 = (10 - 800 / 2, 600 / 2 - 20) ∧
    (updatePointerPosition 10 5 800 600).2 <
      (updatePointerPosition 10 1 800 600).2 :=
  updatePointerPosition_formula 10 20 800 600 1 5 (by norm_num)

/-! ## The vertex shader

The displacement math of the vertex shader, modelled over the reals with
the GLSL built-ins it uses: length and normalize on two-component vectors,
clamp, and smoothstep computed by its defining formula. -/

/-- A two-component vector, as in the shader. -/
structure Vec2 where
  x : ℝ
  y : ℝ

/-- GLSL length of a two-component vector. -/
noncomputable def Vec2.length (v : Vec2) : ℝ := Real.sqrt (v.x ^ 2 + v.y ^ 2)

/-- GLSL normalize: the vector divided by its length. -/
noncomputable def Vec2.normalize (v : Vec2) : Vec2 :=
  ⟨v.x / v.length, v.y / v.length⟩

/-- GLSL clamp. -/
noncomputable def glslClamp (x lo hi : ℝ) : ℝ := min (max x lo) hi

/-- GLSL smoothstep: the clamped cubic Hermite interpolation.  The shader
calls it with edge0 = radius and edge1 = 0, so the result is 1 at distance
0 and 0 at distances of radius or more. -/
noncomputable def smoothstep (edge0 edge1 x : ℝ) : ℝ :=
  let t := glslClamp ((x - edge0) / (edge1 - edge0)) 0 1
  t * t * (3 - 2 * t)

/-- The distance from a grid point to the pointer position, as computed in
the shader: the length of a_position - u_mousePosition. -/
noncomputable def pointerDist (P M : Vec2) : ℝ :=
  Vec2.length ⟨P.x - M.x, P.y - M.y⟩

/-- The displaced position computed by the vertex shader body, line by
line: toFrom, dist, dir, falloff, the scaled time, decay, and the final
displaced position.  It is a plain function of the vertex position, the
pointer position and the elapsed time, with no other inputs. -/
noncomputable def shaderDisplaced (P M : Vec2) (time : ℝ) : Vec2 :=
  let radius : ℝ := 150
  let maxDisplacement : ℝ := 60
  let toFrom : Vec2 := ⟨P.x - M.x, P.y - M.y⟩
  let dist := toFrom.length
  let dir := toFrom.normalize
  let falloff := smoothstep radius 0 dist
  let t := time * 5
  let decay := Real.exp (-3 * falloff * time) * Real.sin t * 0.5 + 1
  ⟨P.x + dir.x * maxDisplacement * falloff * decay,
   P.y + dir.y * maxDisplacement * falloff * decay⟩

/-- The displaced position as the specification words it: with
d = P - M, dist the norm of d, dir = d / dist,
falloff = smoothstep 150 0 dist and
decay = exp(-3 falloff t) sin(5 t) / 2 + 1, the result is
P + dir * 60 * falloff * decay. -/
noncomputable def specDisplaced (P M : Vec2) (t : ℝ) : Vec2 :=
  let d : Vec2 := ⟨P.x - M.x, P.y - M.y⟩
  let dist := Real.sqrt (d.x ^ 2 + d.y ^ 2)
  let dir : Vec2 := ⟨d.x / dist, d.y / dist⟩
  let falloff := smoothstep 150 0 dist
  let decay := Real.exp (-3 * falloff * t) * Real.sin (5 * t) * (1 / 2) + 1
  ⟨P.x + dir.x * 60 * falloff * decay, P.y + dir.y * 60 * falloff * decay⟩

/-- Claim C3: whenever the point is away from the pointer, the shader
computes exactly the closed-form displacement of the specification,
P + dir * 60 * falloff * decay with decay = exp(-3 falloff t) sin(5t)/2 + 1.
Both sides are functions of (P, M, t) alone, so the effect carries no
persistent per-point state. -/
theorem shaderDisplaced_eq_specFormula (P M : Vec2) (t : ℝ)
    (_hd : pointerDist P M ≠ 0) :
    shaderDisplaced P M t = specDisplaced P M t := by
  simp only [shaderDisplaced, specDisplaced, Vec2.normalize, Vec2.length,
    pointerDist] at *
  have h5 : t * 5 = 5 * t := by ring
  rw [h5]
  norm_num

/-- Witness for claim C3 at P = (3, 4), M = (0, 0), t = 1: the distance is
sqrt 25 = 5, which is not 0. -/
theorem shaderDisplaced_eq_specFormula_witness :
    pointerDist ⟨3, 4⟩ ⟨0, 0⟩ ≠ 0 ∧
    shaderDisplaced ⟨3, 4⟩ ⟨0, 0⟩ 1 = specDisplaced ⟨3, 4⟩ ⟨0, 0⟩ 1 := by
  have hd : pointerDist ⟨3, 4⟩ ⟨0, 0⟩ ≠ 0 := by
    rw [pointerDist, Vec2.length]
    rw [Real.sqrt_ne_zero']
    norm_num
  exact ⟨hd, shaderDisplaced_eq_specFormula ⟨3, 4⟩ ⟨0, 0⟩ 1 hd⟩

/-- At distances of at least the radius, the falloff factor is zero: the
argument of the clamp is nonpositive, so the clamp returns 0. -/
theorem smoothstep_eq_zero_of_far (d : ℝ) (hd : 150 ≤ d) :
    smoothstep 150 0 d = 0 := by
  have harg : (d - 150) / (0 - 150) ≤ 0 := by
    apply div_nonpos_of_nonneg_of_nonpos <;> linarith
  have ht : glslClamp ((d - 150) / (0 - 150)) 0 1 = 0 := by
    rw [glslClamp, max_eq_right harg]
    norm_num
  rw [smoothstep]
  simp only [ht]
  ring

/-- Claim C4: whenever the distance from the point to the pointer is at
least 150, the displaced position computed by the vertex shader is exactly
the original point, for every elapsed time: the falloff is 0 and the whole
displacement term vanishes. -/
theorem shaderDisplaced_far_eq_point (P M : Vec2) (t : ℝ)
    (hd : 150 ≤ pointerDist P M) :
    shaderDisplaced P M t = P := by
  have hz : smoothstep 150 0 (pointerDist P M) = 0 :=
    smoothstep_eq_zero_of_far _ hd
  rw [pointerDist, Vec2.length] at hz
  simp only [shaderDisplaced, Vec2.normalize, Vec2.length, hz]
  obtain ⟨px, py⟩ := P
  simp only [Vec2.mk.injEq]
  constructor <;> ring

/-- Witness for claim C4 at P = (200, 0), M = (0, 0), t = 7: the distance
is sqrt 40000 = 200, which is at least 150, and the shader leaves the
point in place. -/
theorem shaderDisplaced_far_eq_point_witness :
    150 ≤ pointerDist ⟨200, 0⟩ ⟨0, 0⟩ ∧
    shaderDisplaced ⟨200, 0⟩ ⟨0, 0⟩ 7 = ⟨200, 0⟩ := by
  have h200 : pointerDist ⟨200, 0⟩ ⟨0, 0⟩ = 200 := by
    rw [pointerDist, Vec2.length]
    rw [show ((200 : ℝ) - 0) ^ 2 + (0 - 0) ^ 2 = 200 ^ 2 by norm_num]
    rw [Real.sqrt_sq]
    norm_num
  have hd : 150 ≤ pointerDist ⟨200, 0⟩ ⟨0, 0⟩ := by
    rw [h200]; norm_num
  exact ⟨hd, shaderDisplaced_far_eq_point ⟨200, 0⟩ ⟨0, 0⟩ 7 hd⟩

/-! ## The object store of the matrix class

clone builds a fresh Matrix3 object with its own fresh nine-element array
and copies the elements over, so no storage is shared with the original.
We make the store explicit: a heap maps references to matrix contents and
carries an allocation bound; every live reference lies below the bound,
and allocation hands out the bound as the fresh reference. -/

/-- The heap of Matrix3 objects: contents per reference, next fresh
reference. -/
structure Heap where
  arrays : ℕ → Matrix3
  next : ℕ

/-- clone: allocate a fresh object and copy the nine elements of the
receiver into it; returns the fresh reference and the new heap. -/
def cloneRef (h : Heap) (r : ℕ) : ℕ × Heap :=
  (h.next, ⟨Function.update h.arrays h.next (h.arrays r), h.next + 1⟩)

/-- A mutation in place: write new contents through a reference, as every
mutating method of the class does via the elements array. -/
def writeRef (h : Heap) (r : ℕ) (m : Matrix3) : Heap :=
  ⟨Function.update h.arrays r m, h.next⟩

/-- set called on the object behind a reference. -/
def setRef (h : Heap) (r : ℕ)
    (m11 m12 m13 m21 m22 m23 m31 m32 m33 : ℚ) : Heap :=
  writeRef h r ((h.arrays r).set m11 m12 m13 m21 m22 m23 m31 m32 m33)

/-- multiplyScalar called on the object behind a reference. -/
def multiplyScalarRef (h : Heap) (r : ℕ) (s : ℚ) : Heap :=
  writeRef h r ((h.arrays r).multiplyScalar s)

/-- multiplyMatrix called on the object behind a reference, reading the
operand behind another reference. -/
def multiplyMatrixRef (h : Heap) (r s : ℕ) : Heap :=
  writeRef h r ((h.arrays r).multiplyMatrix (h.arrays s))

/-- Claim C6: a clone has the same nine elements as the original but a
distinct reference, and each mutating method applied to the clone — set
(which every construction method goes through), multiplyScalar, and
multiplyMatrix with any operand, the original included — leaves the
elements of the original exactly as they were before the clone.  In
particular combining a per-frame model matrix onto pMatrix.clone() never
mutates the stored projection matrix. -/
theorem clone_no_aliasing (h : Heap) (r : ℕ) (hr : r < h.next)
    (m11 m12 m13 m21 m22 m23 m31 m32 m33 s : ℚ) (o : ℕ) :
    (cloneRef h r).2.arrays (cloneRef h r).1 = h.arrays r ∧
    (cloneRef h r).1 ≠ r ∧
    (setRef (cloneRef h r).2 (cloneRef h r).1
        m11 m12 m13 m21 m22 m23 m31 m32 m33).arrays r = h.arrays r ∧
    (multiplyScalarRef (cloneRef h r).2 (cloneRef h r).1 s).arrays r
      = h.arrays r ∧
    (multiplyMatrixRef (cloneRef h r).2 (cloneRef h r).1 o).arrays r
      = h.arrays r := by
  have hne : h.next ≠ r := Nat.ne_of_gt hr
  have hrne : r ≠ h.next := Nat.ne_of_lt hr
  refine ⟨?_, hne, ?_, ?_, ?_⟩ <;>
    simp [cloneRef, setRef, multiplyScalarRef, multiplyMatrixRef, writeRef,
      Function.update_apply, hne, hrne]

/-- Witness for claim C6: a one-object heap holding the identity matrix at
reference 0, cloned and then mutated through each method with concrete
arguments. -/
theorem clone_no_aliasing_witness :
    (0 : ℕ) < (Heap.mk (fun _ => Matrix3.new) 1).next ∧
    (cloneRef (Heap.mk (fun _ => Matrix3.new) 1) 0).2.arrays
        (cloneRef (Heap.mk (fun _ => Matrix3.new) 1) 0).1
      = (Heap.mk (fun _ => Matrix3.new) 1).arrays 0 ∧
    (cloneRef (Heap.mk (fun _ => Matrix3.new) 1) 0).1 ≠ 0 ∧
    (setRef (cloneRef (Heap.mk (fun _ => Matrix3.new) 1) 0).2
        (cloneRef (Heap.mk (fun _ => Matrix3.new) 1) 0).1
        1 2 3 4 5 6 7 8 9).arrays 0
      = (Heap.mk (fun _ => Matrix3.new) 1).arrays 0 ∧
    (multiplyScalarRef (cloneRef (Heap.mk (fun _ => Matrix3.new) 1) 0).2
        (cloneRef (Heap.mk (fun _ => Matrix3.new) 1) 0).1 5).arrays 0
      = (Heap.mk (fun _ => Matrix3.new) 1).arrays 0 ∧
    (multiplyMatrixRef (cloneRef (Heap.mk (fun _ => Matrix3.new) 1) 0).2
        (cloneRef (Heap.mk (fun _ => Matrix3.new) 1) 0).1 0).arrays 0
      = (Heap.mk (fun _ => Matrix3.new) 1).arrays 0 :=
  ⟨Nat.zero_lt_one,
   clone_no_aliasing (Heap.mk (fun _ => Matrix3.new) 1) 0 Nat.zero_lt_one
     1 2 3 4 5 6 7 8 9 5 0⟩

/-! ## Error handling at startup

The environment of the startup path: whether the surface supports WebGL2,
and the compile and link statuses the driver reports.  getWebGL2Context
throws exactly when the context is unavailable; createShader and
createProgram log the info log on failure and return the object
regardless, so execution continues. -/

/-- The status flags the rendering API reports to the startup path. -/
structure GLEnv where
  webgl2Supported : Bool
  vertexCompileOk : Bool
  fragmentCompileOk : Bool
  linkOk : Bool

/-- getWebGL2Context: returns the context, or throws
"WebGL2 not supported." when the surface cannot provide one. -/
def getWebGL2Context (supported : Bool) : Except String Unit :=
  if supported then Except.ok () else Except.error "WebGL2 not supported."

/-- createShader: compiles, logs the info log if the compile status is
false, and returns the shader in every case. -/
def createShader (compileStatus : Bool) : Unit × List String :=
  ((), if compileStatus then [] else ["shader info log"])

/-- createProgram: links, logs the info log if the link status is false,
and returns the program in every case. -/
def createProgram (linkStatus : Bool) : Unit × List String :=
  ((), if linkStatus then [] else ["program info log"])

/-- The checked part of main: acquire the context (the only point that can
throw), then build both shaders and the program, collecting the diagnostic
logs; the program is used afterwards whether or not anything was logged. -/
def mainChecked (env : GLEnv) : Except String (List String) :=
  match getWebGL2Context env.webgl2Supported with
  | Except.error e => Except.error e
  | Except.ok _ =>
    let (_, logVS) := createShader env.vertexCompileOk
    let (_, logFS) := createShader env.fragmentCompileOk
    let (_, logPR) := createProgram env.linkOk
    Except.ok (logVS ++ logFS ++ logPR)

/-- Claim C9: startup raises an error exactly when WebGL2 is unsupported,
with the message of the thrown error; in every supported environment it
runs to completion whatever the compile and link statuses — shader and
program failures only add diagnostic logs, which are present exactly when
some compile or link status is false.  No other operation on this path
raises an error. -/
theorem startup_error_points (env : GLEnv) :
    ((mainChecked env).isOk = env.webgl2Supported) ∧
    (env.webgl2Supported = false →
      mainChecked env = Except.error "WebGL2 not supported.") ∧
    (env.webgl2Supported = true →
      ∃ logs, mainChecked env = Except.ok logs ∧
        (logs = [] ↔
          (env.vertexCompileOk && env.fragmentCompileOk && env.linkOk)
            = true)) := by
  obtain ⟨sup, vs, fs, lk⟩ := env
  cases sup <;> cases vs <;> cases fs <;> cases lk <;>
    simp [mainChecked, getWebGL2Context, createShader, createProgram,
      Except.isOk, Except.toBool]

/-- Witness for claim C9 in the environment where WebGL2 is supported but
the vertex shader fails to compile: startup still succeeds, and the logs
are not empty. -/
theorem startup_error_points_witness :
    ((mainChecked (GLEnv.mk true false true true)).isOk = true) ∧
    ((GLEnv.mk true false true true).webgl2Supported = false →
      mainChecked (GLEnv.mk true false true true)
        = Except.error "WebGL2 not supported.") ∧
    ((GLEnv.mk true false true true).webgl2Supported = true →
      ∃ logs, mainChecked (GLEnv.mk true false true true) = Except.ok logs ∧
        (logs = [] ↔
          ((GLEnv.mk true false true true).vertexCompileOk &&
           (GLEnv.mk true false true true).fragmentCompileOk &&
           (GLEnv.mk true false true true).linkOk) = true)) :=
  startup_error_points (GLEnv.mk true false true true)

end PointsDemo
